import Mathlib

/-!
Verification of the LLM-generation repair loop of ProMoAI
(`src/promoai/general_utils/llm_connection.py`, provider enumeration in
`src/promoai/general_utils/ai_providers.py`).

The repair loop `generate_result_with_error_handling` is embedded shallowly:

* a conversation is a list of role/content turns (Python dicts);
* the provider transport `generate_response_with_together` performs network
  I/O in the source, so it is an oracle parameter taking the current
  conversation, the api key and the model name and returning either the
  response text or the description of the raised transport exception;
* the caller-supplied extraction function may raise any exception in Python;
  the blanket `except Exception as e` of the source turns every such failure
  into the string `str(e)`, so extraction is modelled as returning
  `Except String (String × R)` whose error is that description;
* the `LoopState` threaded through the loop records the conversation (mutated
  in place by appending in the source) and the accumulated error history,
  plus ghost instrumentation absent from the source recording the observable
  interaction: how many transport calls and extraction calls were made, and
  which tolerant (`auto_duplicate`) flags were passed to extraction.

`constants.ENABLE_PRINTS` only gates `print` diagnostics and has no functional
effect, so it is not modelled.
-/

namespace ProMoAI

/-- One conversation turn, the `{"role": ..., "content": ...}` dict of the
source. -/
structure Turn where
  role : String
  content : String
deriving DecidableEq, Repr

/-- The `AIProviders` enum of `ai_providers.py`. -/
inductive AIProviders where
  | OLLAMA
  | TOGETHER
deriving DecidableEq, Repr

/-- The `.value` string of each `AIProviders` member. -/
def AIProviders.value : AIProviders → String
  | .OLLAMA => "Ollama"
  | .TOGETHER => "Together"

/-- `DEFAULT_AI_PROVIDER` of `ai_providers.py`: the Ollama value. -/
def DEFAULT_AI_PROVIDER : String := AIProviders.OLLAMA.value

/-- Loop state: the conversation and error history of the source, plus ghost
counters (`transportCalls`, `extractCalls`) and the list of tolerant flags
passed to the extraction function (`flags`), which instrument the loop's
observable interaction and do not appear in the source. -/
structure LoopState where
  conversation : List Turn
  errorHistory : List String
  transportCalls : Nat
  extractCalls : Nat
  flags : List Bool
deriving DecidableEq, Repr

/-- The three kinds of exception the loop can raise: a propagated transport
exception, the `not supported` configuration exception, and the final
exhaustion exception (which in the source carries its history only inside the
message; the embedding also keeps the history structured for stating
properties). -/
inductive LoopError where
  | transport (msg : String)
  | unsupportedProvider (msg : String)
  | exhausted (msg : String) (history : List String)
deriving DecidableEq, Repr

/-- Result of the loop: the returned `(code, result)` pair on success, or the
raised exception. -/
inductive LoopResult (R : Type) where
  | ok (code : String) (result : R)
  | err (e : LoopError)
deriving DecidableEq, Repr

/-- `true` exactly on the success constructor. -/
def LoopResult.isOk {R : Type} : LoopResult R → Bool
  | .ok _ _ => true
  | .err _ => false

/-- The corrective user message built in the `except` branch of the source:
`"Executing your code led to an error! " + standard_error_message +
" This is the error message: {error_description}"`. -/
def correctiveMessage (standard_error_message error_description : String) : String :=
  "Executing your code led to an error! " ++ standard_error_message ++
    " This is the error message: " ++ error_description

/-- Python `str` of a list of strings, as interpolated into the exhaustion
message (quote-escaping subtleties of `repr` are irrelevant to the claims). -/
def pyStrList (xs : List String) : String :=
  "[" ++ String.intercalate ", " (xs.map (fun s => "\x27" ++ s ++ "\x27")) ++ "]"

/-- The exhaustion message built after the loop.  Note the source interpolates
`str(max_iterations + 5)` — the literal `5`, not `additional_iterations` —
and `llm_name`, not the provider. -/
def exhaustionMessage (llm_name : String) (max_iterations : Nat)
    (history : List String) : String :=
  llm_name ++ " failed to fix the errors after " ++ toString (max_iterations + 5) ++
    " iterations! This is the error history: " ++ pyStrList history

section Loop

variable {R : Type}
variable (together : List Turn → String → String → Except String String)
variable (extraction_function : String → Bool → Except String (String × R))
variable (api_key llm_name ai_provider : String)
variable (max_iterations : Nat)
variable (standard_error_message : String)

/-- One-pass recursion over the remaining iteration budget, mirroring the
`for iteration in range(max_iterations + additional_iterations)` loop body of
`generate_result_with_error_handling` line by line: provider dispatch (only
the Together value has a transport; every other value raises the
`not supported` exception), transport call (a raised transport exception
propagates before anything is appended), append of the assistant turn,
`auto_duplicate = iteration >= max_iterations`, extraction, and on extraction
failure the history append and the corrective user turn. -/
def generateAux :
    Nat → Nat → LoopState → LoopResult R × LoopState
  | 0, _iteration, st =>
    (.err (.exhausted (exhaustionMessage llm_name max_iterations st.errorHistory)
        st.errorHistory), st)
  | remaining + 1, iteration, st =>
    if ai_provider = AIProviders.TOGETHER.value then
      match together st.conversation api_key llm_name with
      | .error msg =>
        (.err (.transport msg), { st with transportCalls := st.transportCalls + 1 })
      | .ok response =>
        match extraction_function response (decide (iteration ≥ max_iterations)) with
        | .ok (code, result) =>
          (.ok code result,
            { st with
              transportCalls := st.transportCalls + 1,
              conversation := st.conversation ++ [⟨"assistant", response⟩],
              extractCalls := st.extractCalls + 1,
              flags := st.flags ++ [decide (iteration ≥ max_iterations)] })
        | .error e =>
          generateAux remaining (iteration + 1)
            { st with
              transportCalls := st.transportCalls + 1,
              extractCalls := st.extractCalls + 1,
              flags := st.flags ++ [decide (iteration ≥ max_iterations)],
              errorHistory := st.errorHistory ++ [e],
              conversation := st.conversation ++
                [⟨"assistant", response⟩,
                 ⟨"user", correctiveMessage standard_error_message e⟩] }
    else
      (.err (.unsupportedProvider ("AI provider " ++ ai_provider ++ " is not supported!")),
        st)

/-- Shallow embedding of `generate_result_with_error_handling`.  In the source
`max_iterations` and `additional_iterations` default to `5`.  Returns the
result (the `(code, result)` pair, or the raised exception) together with the
final loop state, whose `conversation` is what the caller observes in the
list it passed by reference. -/
def generate_result_with_error_handling
    (conversation : List Turn) (additional_iterations : Nat) :
    LoopResult R × LoopState :=
  generateAux together extraction_function api_key llm_name ai_provider
    max_iterations standard_error_message
    (max_iterations + additional_iterations) 0
    ⟨conversation, [], 0, 0, []⟩

/-- The per-attempt error descriptions, in attempt order, of a run whose
transport always answers (with `g` applied to the current conversation) and
whose extraction always fails (with description `f response tolerant`).  Built
front-to-back by cons, unlike the loop's history which grows by append; their
equality is what "in attempt order" means. -/
def failTrace (g : List Turn → String) (f : String → Bool → String) :
    Nat → Nat → List Turn → List String
  | 0, _iteration, _conv => []
  | remaining + 1, iteration, conv =>
    let resp := g conv
    let e := f resp (decide (iteration ≥ max_iterations))
    e :: failTrace g f remaining (iteration + 1)
        (conv ++ [⟨"assistant", resp⟩,
          ⟨"user", correctiveMessage standard_error_message e⟩])

end Loop

/-- Substring test on character lists. -/
def charsContain (sub : List Char) : List Char → Bool
  | [] => sub.isEmpty
  | c :: cs => sub.isPrefixOf (c :: cs) || charsContain sub cs

/-- `strContains s sub` holds when `sub` occurs contiguously in `s`. -/
def strContains (s sub : String) : Bool :=
  charsContain sub.toList s.toList

/-- Concrete transport oracle that always answers `"resp"`. -/
def togConst : List Turn → String → String → Except String String :=
  fun _conv _key _model => Except.ok "resp"

/-- Concrete transport oracle that always raises a connection error. -/
def togErr : List Turn → String → String → Except String String :=
  fun _conv _key _model => Except.error "net down"

/-- Concrete transport oracle answering `"r0"` on an empty conversation and
`"r1"` afterwards, so that a run can fail once and then succeed. -/
def togTwoPhase : List Turn → String → String → Except String String :=
  fun conv _key _model => Except.ok (if conv.length = 0 then "r0" else "r1")

/-- Concrete extraction function that always fails with description `"bad"`. -/
def extFailAll : String → Bool → Except String (String × Unit) :=
  fun _resp _tolerant => Except.error "bad"

/-- Concrete extraction function that always succeeds, echoing the response as
the code. -/
def extOkAll : String → Bool → Except String (String × Unit) :=
  fun resp _tolerant => Except.ok (resp, ())

/-- The response function of `togConst`, for stating trace facts. -/
def gConst : List Turn → String := fun _conv => "resp"

/-- The error-description function of `extFailAll`. -/
def fConst : String → Bool → String := fun _resp _tolerant => "bad"

/-- Concrete extraction function failing exactly on response `"r0"`. -/
def extSecond : String → Bool → Except String (String × Unit) :=
  fun resp _tolerant =>
    if resp = "r0" then Except.error "e0" else Except.ok ("code", ())

section Theorems

variable {R : Type}
variable (together : List Turn → String → String → Except String String)
variable (extraction_function : String → Bool → Except String (String × R))
variable (api_key llm_name ai_provider : String)
variable (max_iterations : Nat)
variable (standard_error_message : String)

/-- The loop only ever appends to the conversation: whatever the outcome, the
entry conversation is a prefix of the final one. -/
theorem generateAux_conv_extends :
    ∀ (r it : Nat) (st : LoopState),
      st.conversation <+:
        (generateAux together extraction_function api_key llm_name ai_provider
          max_iterations standard_error_message r it st).2.conversation := by
  intro r
  induction r with
  | zero => intro it st; exact List.prefix_rfl
  | succ n ih =>
    intro it st
    simp only [generateAux]
    split
    · split
      · exact List.prefix_rfl
      · split
        · exact List.prefix_append _ _
        · refine List.IsPrefix.trans ?_ (ih _ _)
          exact List.prefix_append _ _
    · exact List.prefix_rfl

/-- The loop only ever appends to the error history. -/
theorem generateAux_hist_extends :
    ∀ (r it : Nat) (st : LoopState),
      st.errorHistory <+:
        (generateAux together extraction_function api_key llm_name ai_provider
          max_iterations standard_error_message r it st).2.errorHistory := by
  intro r
  induction r with
  | zero => intro it st; exact List.prefix_rfl
  | succ n ih =>
    intro it st
    simp only [generateAux]
    split
    · split
      · exact List.prefix_rfl
      · split
        · exact List.prefix_rfl
        · refine List.IsPrefix.trans ?_ (ih _ _)
          exact List.prefix_append _ _
    · exact List.prefix_rfl

/-- The ghost transport-call counter never decreases. -/
theorem generateAux_tc_mono :
    ∀ (r it : Nat) (st : LoopState),
      st.transportCalls ≤
        (generateAux together extraction_function api_key llm_name ai_provider
          max_iterations standard_error_message r it st).2.transportCalls := by
  intro r
  induction r with
  | zero => intro it st; exact Nat.le_refl _
  | succ n ih =>
    intro it st
    simp only [generateAux]
    split
    · split
      · exact Nat.le_succ _
      · split
        · exact Nat.le_succ _
        · refine Nat.le_trans ?_ (ih _ _)
          exact Nat.le_succ _
    · exact Nat.le_refl _

/-- The ghost flag log is exactly the `auto_duplicate` value of each attempt
index: provided the entry state is consistent (`it` equals the number of
extraction calls already made and the flag log matches them), the exit state
is consistent too. -/
theorem generateAux_flags_spec :
    ∀ (r it : Nat) (st : LoopState),
      st.flags = (List.range st.extractCalls).map (fun i => decide (i ≥ max_iterations)) →
      it = st.extractCalls →
      (generateAux together extraction_function api_key llm_name ai_provider
          max_iterations standard_error_message r it st).2.flags =
        (List.range
            (generateAux together extraction_function api_key llm_name ai_provider
              max_iterations standard_error_message r it st).2.extractCalls).map
          (fun i => decide (i ≥ max_iterations)) := by
  intro r
  induction r with
  | zero => intro it st hf _hit; exact hf
  | succ n ih =>
    intro it st hf hit
    simp only [generateAux]
    split
    · split
      · exact hf
      · split
        · simp only []
          rw [hf, hit, List.range_succ]
          simp
        · apply ih
          · simp only []
            rw [hf, hit, List.range_succ]
            simp
          · simp [hit]
    · exact hf

/-- Transport calls are bounded by the remaining budget. -/
theorem generateAux_tc_le :
    ∀ (r it : Nat) (st : LoopState),
      (generateAux together extraction_function api_key llm_name ai_provider
          max_iterations standard_error_message r it st).2.transportCalls ≤
        st.transportCalls + r := by
  intro r
  induction r with
  | zero => intro it st; exact Nat.le_refl _
  | succ n ih =>
    intro it st
    simp only [generateAux]
    split
    · split
      · simp only []
        omega
      · split
        · simp only []
          omega
        · refine Nat.le_trans (ih _ _) ?_
          simp only []
          omega
    · simp only []
      omega

/-- On a successful exit the counters are related to the entry state: the
conversation grew by `2 × (new extraction calls) − 1` turns, the transport
calls grew by `(new history entries) + 1`, and transport and extraction calls
grew in lockstep. -/
theorem generateAux_success_relations :
    ∀ (r it : Nat) (st : LoopState),
      (generateAux together extraction_function api_key llm_name ai_provider
          max_iterations standard_error_message r it st).1.isOk = true →
        ((generateAux together extraction_function api_key llm_name ai_provider
            max_iterations standard_error_message r it st).2.conversation.length + 1 +
            2 * st.extractCalls =
          st.conversation.length + 2 *
            (generateAux together extraction_function api_key llm_name ai_provider
              max_iterations standard_error_message r it st).2.extractCalls) ∧
        ((generateAux together extraction_function api_key llm_name ai_provider
            max_iterations standard_error_message r it st).2.transportCalls +
            st.errorHistory.length =
          st.transportCalls +
            (generateAux together extraction_function api_key llm_name ai_provider
              max_iterations standard_error_message r it st).2.errorHistory.length + 1) ∧
        ((generateAux together extraction_function api_key llm_name ai_provider
            max_iterations standard_error_message r it st).2.extractCalls +
            st.transportCalls =
          st.extractCalls +
            (generateAux together extraction_function api_key llm_name ai_provider
              max_iterations standard_error_message r it st).2.transportCalls) := by
  intro r
  induction r with
  | zero =>
    intro it st hok
    simp [generateAux, LoopResult.isOk] at hok
  | succ n ih =>
    intro it st hok
    simp only [generateAux] at hok ⊢
    split at hok
    · rename_i hprov
      rw [if_pos hprov]
      split at hok
      · simp [LoopResult.isOk] at hok
      · split at hok
        · refine ⟨?_, ?_, ?_⟩ <;> simp <;> omega
        · have H := ih _ _ hok
          simp at H ⊢
          omega
    · simp [LoopResult.isOk] at hok

/-- `failTrace` produces one error description per budgeted attempt. -/
theorem failTrace_length (g : List Turn → String) (f : String → Bool → String) :
    ∀ (r it : Nat) (conv : List Turn),
      (failTrace max_iterations standard_error_message g f r it conv).length = r := by
  intro r
  induction r with
  | zero => intro it conv; rfl
  | succ n ih => intro it conv; simp [failTrace, ih]

/-- When the transport always answers and extraction always fails, the loop
exhausts its whole budget and raises the exhaustion exception whose message
and embedded history list the per-attempt error descriptions accumulated so
far followed by `failTrace`, i.e. the errors of the attempts in attempt
order. -/
theorem generateAux_all_fail (g : List Turn → String) (f : String → Bool → String)
    (htog : ∀ c, together c api_key llm_name = Except.ok (g c))
    (hext : ∀ resp b, extraction_function resp b = Except.error (f resp b)) :
    ∀ (r it : Nat) (st : LoopState),
      (generateAux together extraction_function api_key llm_name
          AIProviders.TOGETHER.value max_iterations standard_error_message
          r it st).1 =
        LoopResult.err (.exhausted
          (exhaustionMessage llm_name max_iterations
            (st.errorHistory ++
              failTrace max_iterations standard_error_message g f r it st.conversation))
          (st.errorHistory ++
            failTrace max_iterations standard_error_message g f r it st.conversation)) := by
  intro r
  induction r with
  | zero => intro it st; simp [generateAux, failTrace]
  | succ n ih =>
    intro it st
    simp only [generateAux, failTrace, htog, hext]
    simp only [if_true]
    rw [ih (it + 1)]
    simp

/-- With the Together provider value and a positive remaining budget, at least
one more transport call is made. -/
theorem generateAux_makes_call (r it : Nat) (st : LoopState) (hr : 0 < r) :
    st.transportCalls + 1 ≤
      (generateAux together extraction_function api_key llm_name
        AIProviders.TOGETHER.value max_iterations standard_error_message
        r it st).2.transportCalls := by
  cases r with
  | zero => omega
  | succ n =>
    simp only [generateAux]
    simp only [if_true]
    split
    · simp only []
      omega
    · split
      · simp only []
        omega
      · refine Nat.le_trans ?_ (generateAux_tc_mono together extraction_function
          api_key llm_name AIProviders.TOGETHER.value max_iterations
          standard_error_message n (it + 1) _)
        simp only []
        omega

/-- One loop step with the Together provider, an answering transport and a
failing extraction: the run continues on the remaining budget from the state
with the two appended turns, the new history entry and the bumped ghost
counters. -/
theorem generateAux_step_fail (r it : Nat) (st : LoopState) (resp e : String)
    (hresp : together st.conversation api_key llm_name = Except.ok resp)
    (hext : extraction_function resp (decide (it ≥ max_iterations)) =
      Except.error e) :
    generateAux together extraction_function api_key llm_name
        AIProviders.TOGETHER.value max_iterations standard_error_message
        (r + 1) it st =
      generateAux together extraction_function api_key llm_name
        AIProviders.TOGETHER.value max_iterations standard_error_message
        r (it + 1)
        { st with
          transportCalls := st.transportCalls + 1,
          extractCalls := st.extractCalls + 1,
          flags := st.flags ++ [decide (it ≥ max_iterations)],
          errorHistory := st.errorHistory ++ [e],
          conversation := st.conversation ++
            [⟨"assistant", resp⟩,
             ⟨"user", correctiveMessage standard_error_message e⟩] } := by
  conv_lhs => rw [generateAux]
  simp only [hresp, hext, if_true]

/-- C1: the spec claims that the Ollama provider value dispatches to the local
(Ollama) transport and the Together value to the cloud transport.  The loop
body only dispatches the Together value; the Ollama value — although declared
by `ai_providers.py` as a supported provider and even as `DEFAULT_AI_PROVIDER`,
with a complete `generate_response_with_history_ollama` transport present in
the same file — falls through to the `else` branch and raises the
`not supported` configuration exception with zero transport invocations. -/
theorem C1_ollama_value_is_not_dispatched :
    generate_result_with_error_handling togConst extOkAll "key" "model"
        DEFAULT_AI_PROVIDER 5 "fix" [] 5 =
      (LoopResult.err
        (.unsupportedProvider "AI provider Ollama is not supported!"),
        ⟨[], [], 0, 0, []⟩) := by
  decide

/-- C5: a provider value other than the Together value makes the loop raise
the configuration exception on the first iteration, with zero transport
invocations, no retries, an empty error history and an unchanged
conversation, whenever the iteration budget allows at least one iteration. -/
theorem C5_unsupported_provider_fails_fast
    (conversation : List Turn) (additional_iterations : Nat)
    (h1 : ai_provider ≠ AIProviders.TOGETHER.value)
    (h2 : 0 < max_iterations + additional_iterations) :
    generate_result_with_error_handling together extraction_function api_key
        llm_name ai_provider max_iterations standard_error_message conversation
        additional_iterations =
      (LoopResult.err
        (.unsupportedProvider ("AI provider " ++ ai_provider ++ " is not supported!")),
        ⟨conversation, [], 0, 0, []⟩) := by
  unfold generate_result_with_error_handling
  obtain ⟨k, hk⟩ := Nat.exists_eq_succ_of_ne_zero (Nat.pos_iff_ne_zero.mp h2)
  rw [hk]
  simp only [generateAux]
  rw [if_neg h1]

/-- Witness for C5 at the unsupported value `"Foo"`. -/
theorem C5_witness :
    generate_result_with_error_handling togConst extOkAll "key" "model"
        "Foo" 5 "fix" [] 5 =
      (LoopResult.err
        (.unsupportedProvider "AI provider Foo is not supported!"),
        ⟨[], [], 0, 0, []⟩) :=
  C5_unsupported_provider_fails_fast togConst extOkAll "key" "model" "Foo" 5
    "fix" [] 5 (by decide) (by decide)

/-- C6: a transport call that raises propagates immediately: the loop ends
with that transport error after exactly one transport call, nothing is added
to the error history, no turn is appended to the conversation, and no further
attempt is made, regardless of how much budget remains. -/
theorem C6_transport_error_propagates
    (conversation : List Turn) (additional_iterations : Nat) (m : String)
    (htog : together conversation api_key llm_name = Except.error m)
    (h : 0 < max_iterations + additional_iterations) :
    generate_result_with_error_handling together extraction_function api_key
        llm_name AIProviders.TOGETHER.value max_iterations
        standard_error_message conversation additional_iterations =
      (LoopResult.err (.transport m), ⟨conversation, [], 1, 0, []⟩) := by
  unfold generate_result_with_error_handling
  obtain ⟨k, hk⟩ := Nat.exists_eq_succ_of_ne_zero (Nat.pos_iff_ne_zero.mp h)
  rw [hk]
  simp [generateAux, htog]

/-- Witness for C6: a simulated network failure on a fresh conversation. -/
theorem C6_witness :
    generate_result_with_error_handling togErr extOkAll "key" "model"
        AIProviders.TOGETHER.value 5 "fix" [] 5 =
      (LoopResult.err (.transport "net down"), ⟨[], [], 1, 0, []⟩) :=
  C6_transport_error_propagates togErr extOkAll "key" "model" 5 "fix" [] 5
    "net down" rfl (by decide)

/-- C8: whatever the outcome (success, exhaustion, transport failure or
configuration failure), the conversation is only mutated by appending: the
turns present at entry remain an unchanged prefix of the final conversation,
in their original order. -/
theorem C8_conversation_append_only
    (conversation : List Turn) (additional_iterations : Nat) :
    conversation <+:
      (generate_result_with_error_handling together extraction_function api_key
        llm_name ai_provider max_iterations standard_error_message conversation
        additional_iterations).2.conversation := by
  unfold generate_result_with_error_handling
  exact generateAux_conv_extends together extraction_function api_key llm_name
    ai_provider max_iterations standard_error_message
    (max_iterations + additional_iterations) 0 ⟨conversation, [], 0, 0, []⟩

/-- C9: with a zero total budget the `for` body never runs, so for every
provider value — supported or not — the loop performs zero transport calls,
leaves the conversation unchanged, and raises the exhaustion exception with an
empty error history. -/
theorem C9_zero_budget_exhausts_immediately
    (conversation : List Turn) (additional_iterations : Nat)
    (h : max_iterations + additional_iterations = 0) :
    generate_result_with_error_handling together extraction_function api_key
        llm_name ai_provider max_iterations standard_error_message conversation
        additional_iterations =
      (LoopResult.err
        (.exhausted (exhaustionMessage llm_name max_iterations []) []),
        ⟨conversation, [], 0, 0, []⟩) := by
  unfold generate_result_with_error_handling
  rw [h]
  rfl

/-- Witness for C9: zero budget with the unsupported value `"Foo"`. -/
theorem C9_witness :
    generate_result_with_error_handling togConst extOkAll "key" "model"
        "Foo" 0 "fix" [] 0 =
      (LoopResult.err
        (.exhausted (exhaustionMessage "model" 0 []) []),
        ⟨[], [], 0, 0, []⟩) :=
  C9_zero_budget_exhausts_immediately togConst extOkAll "key" "model" "Foo" 0
    "fix" [] 0 rfl

/-- C2 (counterexample to the claim as stated): with `max_iterations = 1` and
`additional_iterations = 0` and every extraction failing, the total attempt
count is `1`, yet the raised exhaustion message claims `6` iterations — the
source hardcodes `str(max_iterations + 5)` — and it contains neither the
digit `1` (so it cannot state the total attempt count) nor the provider name
`Together` (it names the model `m` instead). -/
theorem C2_counterexample :
    ((generate_result_with_error_handling togConst extFailAll "key" "m"
        AIProviders.TOGETHER.value 1 "fix" [] 0).1 =
      LoopResult.err (.exhausted
        "m failed to fix the errors after 6 iterations! This is the error history: ['bad']"
        ["bad"])) ∧
    strContains
      "m failed to fix the errors after 6 iterations! This is the error history: ['bad']"
      "1" = false ∧
    strContains
      "m failed to fix the errors after 6 iterations! This is the error history: ['bad']"
      "Together" = false := by
  decide

/-- C2 (amended): when the transport always answers and extraction always
fails, the loop raises the exhaustion exception whose embedded error history
is `failTrace` — the per-attempt error descriptions in attempt order — with
exactly `max_iterations + additional_iterations` entries, and whose message is
`exhaustionMessage`, which names the model (`llm_name`) and interpolates
`max_iterations + 5` (not the total attempt count) as the iteration count. -/
theorem C2_exhaustion_error_contents
    (g : List Turn → String) (f : String → Bool → String)
    (conversation : List Turn) (additional_iterations : Nat)
    (htog : ∀ c, together c api_key llm_name = Except.ok (g c))
    (hext : ∀ resp b, extraction_function resp b = Except.error (f resp b)) :
    (generate_result_with_error_handling together extraction_function api_key
        llm_name AIProviders.TOGETHER.value max_iterations
        standard_error_message conversation additional_iterations).1 =
      LoopResult.err (.exhausted
        (exhaustionMessage llm_name max_iterations
          (failTrace max_iterations standard_error_message g f
            (max_iterations + additional_iterations) 0 conversation))
        (failTrace max_iterations standard_error_message g f
          (max_iterations + additional_iterations) 0 conversation)) ∧
    (failTrace max_iterations standard_error_message g f
        (max_iterations + additional_iterations) 0 conversation).length =
      max_iterations + additional_iterations := by
  constructor
  · unfold generate_result_with_error_handling
    have H := generateAux_all_fail together extraction_function api_key llm_name
      max_iterations standard_error_message g f htog hext
      (max_iterations + additional_iterations) 0 ⟨conversation, [], 0, 0, []⟩
    simpa using H
  · exact failTrace_length max_iterations standard_error_message g f
      (max_iterations + additional_iterations) 0 conversation

/-- Witness for C2 (amended) at a two-attempt always-failing run. -/
theorem C2_witness :
    (generate_result_with_error_handling togConst extFailAll "key" "m"
        AIProviders.TOGETHER.value 1 "fix" [] 1).1 =
      LoopResult.err (.exhausted
        (exhaustionMessage "m" 1 (failTrace 1 "fix" gConst fConst 2 0 []))
        (failTrace 1 "fix" gConst fConst 2 0 [])) ∧
    (failTrace 1 "fix" gConst fConst 2 0 []).length = 2 :=
  C2_exhaustion_error_contents togConst extFailAll "key" "m" 1 "fix"
    gConst fConst [] 1 (fun _c => rfl) (fun _resp _b => rfl)

/-- C3 (counterexample to the claim as stated): a run whose extraction fails
on the first attempt and succeeds on the second appends 3 turns
(assistant-fail, user-correction, assistant-success) for 2 attempts used,
not `2 × attempts_used = 4`. -/
theorem C3_counterexample :
    (generate_result_with_error_handling togTwoPhase extSecond "key" "m"
        AIProviders.TOGETHER.value 5 "fix" [] 5).1 = LoopResult.ok "code" () ∧
    (generate_result_with_error_handling togTwoPhase extSecond "key" "m"
        AIProviders.TOGETHER.value 5 "fix" [] 5).2.extractCalls = 2 ∧
    (generate_result_with_error_handling togTwoPhase extSecond "key" "m"
        AIProviders.TOGETHER.value 5 "fix" [] 5).2.conversation.length = 3 ∧
    ¬((generate_result_with_error_handling togTwoPhase extSecond "key" "m"
          AIProviders.TOGETHER.value 5 "fix" [] 5).2.conversation.length =
        2 * (generate_result_with_error_handling togTwoPhase extSecond "key" "m"
          AIProviders.TOGETHER.value 5 "fix" [] 5).2.extractCalls) := by
  decide

/-- C3 (amended): every successful run appends exactly
`2 × attempts_used − 1` turns — two per failed attempt and one for the final
successful attempt — stated without subtraction as
`final length + 1 = initial length + 2 × attempts_used`, where attempts_used
is the ghost extraction-call counter. -/
theorem C3_success_turn_count
    (conversation : List Turn) (additional_iterations : Nat)
    (hok : (generate_result_with_error_handling together extraction_function
        api_key llm_name ai_provider max_iterations standard_error_message
        conversation additional_iterations).1.isOk = true) :
    (generate_result_with_error_handling together extraction_function api_key
        llm_name ai_provider max_iterations standard_error_message conversation
        additional_iterations).2.conversation.length + 1 =
      conversation.length +
        2 * (generate_result_with_error_handling together extraction_function
          api_key llm_name ai_provider max_iterations standard_error_message
          conversation additional_iterations).2.extractCalls := by
  unfold generate_result_with_error_handling at hok ⊢
  have H := (generateAux_success_relations together extraction_function api_key
    llm_name ai_provider max_iterations standard_error_message
    (max_iterations + additional_iterations) 0 ⟨conversation, [], 0, 0, []⟩ hok).1
  simp at H
  omega

/-- Witness for C3 (amended): the fail-once-then-succeed run appends 3 turns
for 2 attempts used. -/
theorem C3_witness :
    (generate_result_with_error_handling togTwoPhase extSecond "key" "m"
        AIProviders.TOGETHER.value 5 "fix" [] 5).2.conversation.length + 1 =
      ([] : List Turn).length +
        2 * (generate_result_with_error_handling togTwoPhase extSecond "key" "m"
          AIProviders.TOGETHER.value 5 "fix" [] 5).2.extractCalls :=
  C3_success_turn_count togTwoPhase extSecond "key" "m"
    AIProviders.TOGETHER.value 5 "fix" [] 5 (by decide)

/-- C4: every extraction call of every run receives the tolerant
(`auto_duplicate`) flag `i ≥ max_iterations` for its attempt index `i`
(recorded in the ghost flag log); and concretely, with `max_iterations = 2`
and `additional_iterations = 1`, an always-failing run passes
`false, false, true`. -/
theorem C4_tolerant_flag_schedule
    (conversation : List Turn) (additional_iterations : Nat) :
    ((generate_result_with_error_handling together extraction_function api_key
        llm_name ai_provider max_iterations standard_error_message conversation
        additional_iterations).2.flags =
      (List.range
          (generate_result_with_error_handling together extraction_function
            api_key llm_name ai_provider max_iterations standard_error_message
            conversation additional_iterations).2.extractCalls).map
        (fun i => decide (i ≥ max_iterations))) ∧
    (generate_result_with_error_handling togConst extFailAll "key" "m"
        AIProviders.TOGETHER.value 2 "fix" [] 1).2.flags =
      [false, false, true] := by
  constructor
  · unfold generate_result_with_error_handling
    exact generateAux_flags_spec together extraction_function api_key llm_name
      ai_provider max_iterations standard_error_message
      (max_iterations + additional_iterations) 0 ⟨conversation, [], 0, 0, []⟩
      (by simp) rfl
  · decide

/-- C7: every run performs at most `max_iterations + additional_iterations`
transport calls, and a successful run returns on the first extraction
success: its transport calls equal its failed attempts plus one, and every
transport call was followed by exactly one extraction call. -/
theorem C7_bounded_calls_first_success_returns
    (conversation : List Turn) (additional_iterations : Nat) :
    ((generate_result_with_error_handling together extraction_function api_key
        llm_name ai_provider max_iterations standard_error_message conversation
        additional_iterations).2.transportCalls ≤
      max_iterations + additional_iterations) ∧
    ((generate_result_with_error_handling together extraction_function api_key
        llm_name ai_provider max_iterations standard_error_message conversation
        additional_iterations).1.isOk = true →
      (generate_result_with_error_handling together extraction_function api_key
          llm_name ai_provider max_iterations standard_error_message conversation
          additional_iterations).2.transportCalls =
        (generate_result_with_error_handling together extraction_function api_key
          llm_name ai_provider max_iterations standard_error_message conversation
          additional_iterations).2.errorHistory.length + 1 ∧
      (generate_result_with_error_handling together extraction_function api_key
          llm_name ai_provider max_iterations standard_error_message conversation
          additional_iterations).2.extractCalls =
        (generate_result_with_error_handling together extraction_function api_key
          llm_name ai_provider max_iterations standard_error_message conversation
          additional_iterations).2.transportCalls) := by
  unfold generate_result_with_error_handling
  constructor
  · have H := generateAux_tc_le together extraction_function api_key llm_name
      ai_provider max_iterations standard_error_message
      (max_iterations + additional_iterations) 0 ⟨conversation, [], 0, 0, []⟩
    simpa using H
  · intro hok
    have H := generateAux_success_relations together extraction_function api_key
      llm_name ai_provider max_iterations standard_error_message
      (max_iterations + additional_iterations) 0 ⟨conversation, [], 0, 0, []⟩ hok
    simp at H
    exact ⟨by omega, by omega⟩

/-- Witness for C7 at the fail-once-then-succeed run (the success implication
discharged). -/
theorem C7_witness :
    ((generate_result_with_error_handling togTwoPhase extSecond "key" "m"
        AIProviders.TOGETHER.value 5 "fix" [] 5).2.transportCalls ≤ 5 + 5) ∧
    ((generate_result_with_error_handling togTwoPhase extSecond "key" "m"
        AIProviders.TOGETHER.value 5 "fix" [] 5).2.transportCalls =
      (generate_result_with_error_handling togTwoPhase extSecond "key" "m"
        AIProviders.TOGETHER.value 5 "fix" [] 5).2.errorHistory.length + 1 ∧
    (generate_result_with_error_handling togTwoPhase extSecond "key" "m"
        AIProviders.TOGETHER.value 5 "fix" [] 5).2.extractCalls =
      (generate_result_with_error_handling togTwoPhase extSecond "key" "m"
        AIProviders.TOGETHER.value 5 "fix" [] 5).2.transportCalls) :=
  ⟨(C7_bounded_calls_first_success_returns togTwoPhase extSecond "key" "m"
      AIProviders.TOGETHER.value 5 "fix" [] 5).1,
   (C7_bounded_calls_first_success_returns togTwoPhase extSecond "key" "m"
      AIProviders.TOGETHER.value 5 "fix" [] 5).2 (by decide)⟩

/-- C10: any failure of the caller-supplied extraction function — any error
description whatsoever, matching the source's blanket `except Exception` — is
caught and treated as a retryable extraction failure: the description becomes
the next error-history entry, the appended turns for the attempt are the
assistant response followed by a corrective user turn containing the
description, and the loop proceeds to a further attempt (a second transport
call) when budget remains. -/
theorem C10_any_extraction_failure_is_retried
    (conversation : List Turn) (additional_iterations : Nat) (resp e : String)
    (hresp : together conversation api_key llm_name = Except.ok resp)
    (hext : extraction_function resp false = Except.error e)
    (hm : 0 < max_iterations)
    (hbudget : 2 ≤ max_iterations + additional_iterations) :
    (generate_result_with_error_handling together extraction_function api_key
        llm_name AIProviders.TOGETHER.value max_iterations
        standard_error_message conversation
        additional_iterations).2.errorHistory.head? = some e ∧
    ((generate_result_with_error_handling together extraction_function api_key
        llm_name AIProviders.TOGETHER.value max_iterations
        standard_error_message conversation
        additional_iterations).2.conversation.drop conversation.length).take 2 =
      [⟨"assistant", resp⟩,
       ⟨"user", correctiveMessage standard_error_message e⟩] ∧
    2 ≤ (generate_result_with_error_handling together extraction_function
        api_key llm_name AIProviders.TOGETHER.value max_iterations
        standard_error_message conversation
        additional_iterations).2.transportCalls := by
  unfold generate_result_with_error_handling
  obtain ⟨k, hk⟩ : ∃ k, max_iterations + additional_iterations = k + 1 + 1 :=
    ⟨max_iterations + additional_iterations - 2, by omega⟩
  rw [hk]
  have hflag : decide (0 ≥ max_iterations) = false := by
    simp only [decide_eq_false_iff_not]
    omega
  rw [generateAux_step_fail together extraction_function api_key llm_name
    max_iterations standard_error_message (k + 1) 0 ⟨conversation, [], 0, 0, []⟩
    resp e hresp (by rw [hflag]; exact hext)]
  simp only [hflag, List.nil_append, Nat.zero_add]
  refine ⟨?_, ?_, ?_⟩
  · obtain ⟨t, ht⟩ := generateAux_hist_extends together extraction_function
      api_key llm_name AIProviders.TOGETHER.value max_iterations
      standard_error_message (k + 1) 1
      ⟨conversation ++ [⟨"assistant", resp⟩,
        ⟨"user", correctiveMessage standard_error_message e⟩], [e], 1, 1, [false]⟩
    rw [← ht]
    rfl
  · obtain ⟨t, ht⟩ := generateAux_conv_extends together extraction_function
      api_key llm_name AIProviders.TOGETHER.value max_iterations
      standard_error_message (k + 1) 1
      ⟨conversation ++ [⟨"assistant", resp⟩,
        ⟨"user", correctiveMessage standard_error_message e⟩], [e], 1, 1, [false]⟩
    rw [← ht]
    rw [List.append_assoc, List.drop_left]
    rfl
  · have H := generateAux_makes_call together extraction_function api_key
      llm_name max_iterations standard_error_message (k + 1) 1
      ⟨conversation ++ [⟨"assistant", resp⟩,
        ⟨"user", correctiveMessage standard_error_message e⟩], [e], 1, 1, [false]⟩
      (by omega)
    simpa using H

/-- Witness for C10: an always-failing extraction with description `"bad"`. -/
theorem C10_witness :
    (generate_result_with_error_handling togConst extFailAll "key" "model"
        AIProviders.TOGETHER.value 5 "fix" [] 5).2.errorHistory.head? =
      some "bad" ∧
    ((generate_result_with_error_handling togConst extFailAll "key" "model"
        AIProviders.TOGETHER.value 5 "fix" [] 5).2.conversation.drop
        ([] : List Turn).length).take 2 =
      [⟨"assistant", "resp"⟩, ⟨"user", correctiveMessage "fix" "bad"⟩] ∧
    2 ≤ (generate_result_with_error_handling togConst extFailAll "key" "model"
        AIProviders.TOGETHER.value 5 "fix" [] 5).2.transportCalls :=
  C10_any_extraction_failure_is_retried togConst extFailAll "key" "model" 5
    "fix" [] 5 "resp" "bad" rfl rfl (by decide) (by decide)

end Theorems

end ProMoAI
